import Mathlib

/-!
Verification of the credential-and-provider bootstrap procedure
`IBMQDevice.__init__` from `pennylane_qiskit/ibmq.py`.

The constructor is embedded shallowly as a pure function from
* the process environment (the two variables `IBMQX_TOKEN` and `IBMQX_URL`),
* the behaviour of the wrapped IBM Q SDK (whether an account is active under
  the v1 or v2 scheme, whether the two disk loads succeed, and what
  `IBMQ.get_provider()` returns), and
* the constructor arguments (`wires`, `provider`, `backend`, `shots`, `kwargs`)

to the sequence of external SDK calls it performs together with the
`IBMQAccountError` it raises, if any.  Python truthiness of strings and of
the `provider` argument is modelled explicitly, since the source uses
`or`-chaining (`os.getenv(...) or kwargs.get(...)`, `provider or
IBMQ.get_provider()`).
-/

namespace PennylaneQiskit

/-- Python truthiness of an optional string: `None` and the empty string
are falsy, every other string is truthy. -/
def strTruthy : Option String → Bool
  | none => false
  | some s => !s.isEmpty

/-- Python `a or b` on optional strings: evaluates to `a` when `a` is
truthy and to `b` otherwise. -/
def pyOr (a b : Option String) : Option String :=
  if strTruthy a then a else b

/-- A Python object as far as the constructor is concerned: only its
identity and its truthiness are observable here.  This models the
`provider` argument and the result of `IBMQ.get_provider()`. -/
structure PyObj where
  id : Nat
  truthy : Bool
deriving DecidableEq, Repr

/-- The exception `qiskit.providers.ibmq.exceptions.IBMQAccountError`,
identified by its message string. -/
structure IBMQAccountError where
  msg : String
deriving DecidableEq, Repr

/-- The process environment: the values of the two environment variables
consulted by the constructor (`none` means the variable is unset). -/
structure Env where
  IBMQX_TOKEN : Option String
  IBMQX_URL : Option String
deriving DecidableEq, Repr

/-- The observable behaviour of the wrapped SDK during one constructor
call:
* `activeAccountV2`: whether `IBMQ.active_account()` returns a credential
  dictionary (`true`) rather than `None`;
* `activeAccountsV1`: whether `IBMQ.active_accounts()` returns a nonempty
  list;
* `loadAccountsError`: `some m` when `IBMQ.load_accounts()` raises
  `IBMQAccountError(m)`, `none` when it succeeds;
* `loadAccountError`: likewise for `IBMQ.load_account()`;
* `getProviderResult`: the provider returned by `IBMQ.get_provider()`. -/
structure SDKState where
  activeAccountV2 : Bool
  activeAccountsV1 : Bool
  loadAccountsError : Option String
  loadAccountError : Option String
  getProviderResult : PyObj
deriving DecidableEq, Repr

/-- One external call made by the constructor.  `enableAccount t u`
records `IBMQ.enable_account(token, **ibmq_kwargs)` where the `url`
keyword is passed exactly when `u` is `some`; `superInit` records the
delegation `super().__init__(wires=..., provider=..., backend=...,
shots=..., **kwargs)`. -/
inductive Call where
  | enableAccount (token : String) (url : Option String)
  | activeAccount
  | activeAccounts
  | loadAccounts
  | loadAccount
  | getProvider
  | superInit (wires : Nat) (provider : PyObj) (backend : String)
      (shots : Nat) (kwargs : List (String × String))
deriving DecidableEq, Repr

/-- The constructor arguments.  `provider = none` models passing Python
`None` (the default); `kwargs` is the keyword-argument dictionary as an
association list (`kwargs.get k` is `List.lookup`). -/
structure Args where
  wires : Nat
  provider : Option PyObj
  backend : String
  shots : Nat
  kwargs : List (String × String)
deriving DecidableEq, Repr

/-- Line 74 of the source:
`token = os.getenv("IBMQX_TOKEN") or kwargs.get("ibmqx_token", None)`. -/
def resolveToken (env : Env) (kwargs : List (String × String)) : Option String :=
  pyOr env.IBMQX_TOKEN (kwargs.lookup "ibmqx_token")

/-- Line 75 of the source:
`url = os.getenv("IBMQX_URL") or kwargs.get("ibmqx_url", None)`. -/
def resolveUrl (env : Env) (kwargs : List (String × String)) : Option String :=
  pyOr env.IBMQX_URL (kwargs.lookup "ibmqx_url")

/-- The message of the error raised by the constructor itself when every
account source fails. -/
def noAccountMsg : String := "No active IBM Q account, and no IBM Q token provided."

/-- Python truthiness of the optional provider argument (`None` is falsy,
otherwise the object decides). -/
def optTruthy : Option PyObj → Bool
  | none => false
  | some p => p.truthy

/-- Line 115 of the source, `p = provider or IBMQ.get_provider()`:
the provider value that reaches the parent constructor. -/
def resolvedProvider (sdk : SDKState) (a : Args) : PyObj :=
  match a.provider with
  | some p => if p.truthy then p else sdk.getProviderResult
  | none => sdk.getProviderResult

/-- The calls of the provider-delegation step (lines 115 and 117):
`IBMQ.get_provider()` is invoked only when the supplied `provider` is
falsy (Python `or` short-circuits), then the parent constructor is
called. -/
def provCalls (sdk : SDKState) (a : Args) : List Call :=
  match a.provider with
  | some p =>
      if p.truthy then
        [Call.superInit a.wires p a.backend a.shots a.kwargs]
      else
        [Call.getProvider,
         Call.superInit a.wires sdk.getProviderResult a.backend a.shots a.kwargs]
  | none =>
      [Call.getProvider,
       Call.superInit a.wires sdk.getProviderResult a.backend a.shots a.kwargs]

/-- The tail of every non-raising run: the account step's calls `pre`
followed by the provider-delegation step, with no error. -/
def finishInit (sdk : SDKState) (a : Args) (pre : List Call) :
    List Call × Option IBMQAccountError :=
  (pre ++ provCalls sdk a, none)

/-- Shallow embedding of `IBMQDevice.__init__` (lines 73-117 of
`pennylane_qiskit/ibmq.py`).  Returns the sequence of external SDK calls
performed and `some e` when the constructor raises the account error `e`.
Control flow follows the source exactly: if the resolved token is not
`None`, `IBMQ.enable_account` is called (with the `url` keyword exactly
when the resolved url is not `None`); otherwise `IBMQ.active_account()`
is checked, `IBMQ.active_accounts()` only if that returned `None`
(Python `and` short-circuits), then `IBMQ.load_accounts()` and, if it
raises, `IBMQ.load_account()`; if that also raises, a fresh
`IBMQAccountError` with `noAccountMsg` is raised.  Otherwise execution
reaches the provider step. -/
def ibmqInit (env : Env) (sdk : SDKState) (a : Args) :
    List Call × Option IBMQAccountError :=
  match resolveToken env a.kwargs with
  | some t =>
      finishInit sdk a [Call.enableAccount t (resolveUrl env a.kwargs)]
  | none =>
      if sdk.activeAccountV2 then
        finishInit sdk a [Call.activeAccount]
      else if sdk.activeAccountsV1 then
        finishInit sdk a [Call.activeAccount, Call.activeAccounts]
      else
        match sdk.loadAccountsError with
        | none =>
            finishInit sdk a
              [Call.activeAccount, Call.activeAccounts, Call.loadAccounts]
        | some _ =>
            match sdk.loadAccountError with
            | none =>
                finishInit sdk a
                  [Call.activeAccount, Call.activeAccounts, Call.loadAccounts,
                   Call.loadAccount]
            | some _ =>
                ([Call.activeAccount, Call.activeAccounts, Call.loadAccounts,
                  Call.loadAccount],
                 some ⟨noAccountMsg⟩)

/-- Recognizer for the activation call in a trace. -/
def isEnable : Call → Bool
  | Call.enableAccount _ _ => true
  | _ => false

/-- Recognizer for the account-lookup calls (active-account checks and
disk loads). -/
def isLookupCall : Call → Bool
  | Call.activeAccount => true
  | Call.activeAccounts => true
  | Call.loadAccounts => true
  | Call.loadAccount => true
  | _ => false

/-- Recognizer for any call of the account-activation/lookup step. -/
def isAccountCall : Call → Bool
  | Call.enableAccount _ _ => true
  | Call.activeAccount => true
  | Call.activeAccounts => true
  | Call.loadAccounts => true
  | Call.loadAccount => true
  | _ => false

/-- Recognizer for the calls of the provider-delegation step. -/
def isProviderCall : Call → Bool
  | Call.getProvider => true
  | Call.superInit _ _ _ _ _ => true
  | _ => false

/-- Recognizer for the parent-constructor call. -/
def isSuperCall : Call → Bool
  | Call.superInit _ _ _ _ _ => true
  | _ => false

/-- Fixture: both environment variables set. -/
def envTok : Env := ⟨some "env-token", some "env-url"⟩

/-- Fixture: neither environment variable set. -/
def envNone : Env := ⟨none, none⟩

/-- Fixture: no account active, both disk loads raise. -/
def sdkAllFail : SDKState := ⟨false, false, some "v1 load failed", some "v2 load failed", ⟨7, true⟩⟩

/-- Fixture: a v2 account is already active. -/
def sdkActive : SDKState := ⟨true, false, some "v1 load failed", some "v2 load failed", ⟨7, true⟩⟩

/-- Fixture: no account active, the v1 load raises, the v2 load succeeds. -/
def sdkV2Load : SDKState := ⟨false, false, some "v1 load failed", none, ⟨7, true⟩⟩

/-- Fixture: default constructor arguments, no extra keyword arguments. -/
def argsPlain : Args := ⟨2, none, "ibmq_qasm_simulator", 1024, []⟩

/-- C1: The constructor raises an account error if and only if no token is
resolved (neither from the `IBMQX_TOKEN` environment variable nor the
`ibmqx_token` keyword, which is exactly `resolveToken … = none`), no IBM Q
account is already active under either credential scheme, and both disk
loads (`IBMQ.load_accounts` and `IBMQ.load_account`) fail; in every other
case no error is raised. -/
theorem ibmqInit_raises_iff (env : Env) (sdk : SDKState) (a : Args) :
    (ibmqInit env sdk a).2.isSome = true ↔
      resolveToken env a.kwargs = none ∧
      sdk.activeAccountV2 = false ∧ sdk.activeAccountsV1 = false ∧
      sdk.loadAccountsError.isSome = true ∧ sdk.loadAccountError.isSome = true := by
  obtain ⟨av2, av1, lae1, lae2, gp⟩ := sdk
  obtain ⟨w, prov, bk, sh, kw⟩ := a
  cases h : resolveToken env kw <;>
    cases av2 <;> cases av1 <;> cases lae1 <;> cases lae2 <;>
      simp [ibmqInit, finishInit, h]

/-- C2: Whenever a token is resolved, the activation call
`IBMQ.enable_account` appears exactly once in the trace, carrying that
token, and carrying the `url` keyword exactly when a URL was resolved
(the call records the resolved url, which is `some` exactly in that
case); when no token is resolved, no activation call is made. -/
theorem enable_account_spec (env : Env) (sdk : SDKState) (a : Args) :
    (∀ t, resolveToken env a.kwargs = some t →
        (ibmqInit env sdk a).1.filter isEnable =
          [Call.enableAccount t (resolveUrl env a.kwargs)]) ∧
    (resolveToken env a.kwargs = none →
        (ibmqInit env sdk a).1.filter isEnable = []) := by
  obtain ⟨av2, av1, lae1, lae2, gp⟩ := sdk
  obtain ⟨w, prov, bk, sh, kw⟩ := a
  constructor
  · intro t ht
    cases prov with
    | none => simp [ibmqInit, finishInit, ht, provCalls, isEnable]
    | some p =>
        cases hp : p.truthy <;>
          simp [ibmqInit, finishInit, ht, provCalls, hp, isEnable]
  · intro ht
    cases av2 <;> cases av1 <;> cases lae1 <;> cases lae2 <;>
      cases prov <;>
        simp [ibmqInit, finishInit, ht, provCalls, isEnable] <;>
          rename_i p <;> cases hp : p.truthy <;> simp [hp, isEnable]

/-- C2 witness: with `IBMQX_TOKEN` and `IBMQX_URL` both set, the trace
contains exactly one activation call, with that token and url. -/
theorem enable_account_spec_witness :
    (ibmqInit envTok sdkAllFail argsPlain).1.filter isEnable =
      [Call.enableAccount "env-token" (resolveUrl envTok argsPlain.kwargs)] :=
  (enable_account_spec envTok sdkAllFail argsPlain).1 "env-token" rfl

/-- Fixture for C3: the environment variable and the keyword argument are
both set, to distinct tokens. -/
def envBoth : Env := ⟨some "env-tok", none⟩

/-- Fixture for C3: keyword arguments carrying an `ibmqx_token`. -/
def argsKwTok : Args := ⟨2, none, "ibmq_qasm_simulator", 1024, [("ibmqx_token", "kw-tok")]⟩

/-- C3: evaluation of the code at the failing input.  With
`IBMQX_TOKEN=env-tok` in the environment and `ibmqx_token="kw-tok"`
supplied as a keyword, the code resolves the environment token, not the
keyword token, and activates the account with it — the environment
variable takes precedence, the keyword is only the fallback, contrary to
the claim (and to the module docstring). -/
theorem token_env_precedence_failing_input :
    resolveToken envBoth argsKwTok.kwargs = some "env-tok" ∧
    resolveToken envBoth argsKwTok.kwargs ≠ some "kw-tok" ∧
    (ibmqInit envBoth sdkAllFail argsKwTok).1.filter isEnable =
      [Call.enableAccount "env-tok" none] := by
  refine ⟨rfl, by decide, rfl⟩

/-- Helper: the provider-delegation step always contains the parent
constructor call with the resolved provider. -/
theorem superInit_mem_provCalls (sdk : SDKState) (a : Args) :
    Call.superInit a.wires (resolvedProvider sdk a) a.backend a.shots a.kwargs ∈
      provCalls sdk a := by
  obtain ⟨w, prov, bk, sh, kw⟩ := a
  cases prov with
  | none => simp [provCalls, resolvedProvider]
  | some p => cases hp : p.truthy <;> simp [provCalls, resolvedProvider, hp]

/-- C4: Whenever no token is resolved but an account is available — one is
already active under the v2 or the v1 scheme, or one of the two disk
loads succeeds — the constructor raises no error and the parent
constructor is invoked with the resolved provider
(`provider or IBMQ.get_provider()`). -/
theorem no_token_cached_account_ok (env : Env) (sdk : SDKState) (a : Args)
    (ht : resolveToken env a.kwargs = none)
    (hacc : sdk.activeAccountV2 = true ∨ sdk.activeAccountsV1 = true ∨
      sdk.loadAccountsError = none ∨ sdk.loadAccountError = none) :
    (ibmqInit env sdk a).2 = none ∧
    Call.superInit a.wires (resolvedProvider sdk a) a.backend a.shots a.kwargs ∈
      (ibmqInit env sdk a).1 := by
  obtain ⟨av2, av1, lae1, lae2, gp⟩ := sdk
  obtain ⟨w, prov, bk, sh, kw⟩ := a
  cases av2 <;> cases av1 <;> cases lae1 <;> cases lae2 <;>
    simp_all [ibmqInit, finishInit] <;>
      exact superInit_mem_provCalls _ _

/-- C4 witness: with no credentials supplied but a v2 account already
active, no error is raised and the parent constructor receives the
resolved provider. -/
theorem no_token_cached_account_ok_witness :
    (ibmqInit envNone sdkActive argsPlain).2 = none ∧
    Call.superInit argsPlain.wires (resolvedProvider sdkActive argsPlain)
        argsPlain.backend argsPlain.shots argsPlain.kwargs ∈
      (ibmqInit envNone sdkActive argsPlain).1 :=
  no_token_cached_account_ok envNone sdkActive argsPlain rfl (Or.inl rfl)

/-- Fixture for C5: no account active and the two disk loads raise SDK
errors with their own distinct messages. -/
def sdkC5 : SDKState := ⟨false, false, some "v1: no accounts on disk", some "v2: no account on disk", ⟨3, true⟩⟩

/-- C5 counterexample: at an input where both SDK disk loads raise their
own errors, the error surfaced by the constructor is a fresh
`IBMQAccountError` with the module's fixed message — it is not either of
the wrapped SDK's errors, so the SDK error is not bubbled up unchanged
(the code catches it and raises its own error `from None`). -/
theorem surfaced_error_not_sdk_error :
    (ibmqInit envNone sdkC5 argsPlain).2 = some ⟨noAccountMsg⟩ ∧
    (ibmqInit envNone sdkC5 argsPlain).2 ≠ some ⟨"v1: no accounts on disk"⟩ ∧
    (ibmqInit envNone sdkC5 argsPlain).2 ≠ some ⟨"v2: no account on disk"⟩ := by
  refine ⟨rfl, by decide, by decide⟩

/-- C5 amended: when no usable account can be resolved, the surfaced
error is of the wrapped SDK's error type (`IBMQAccountError`) but is a
new error constructed by the module with the fixed message
`noAccountMsg`, replacing the SDK's own load errors (which are caught and
suppressed); no load call is retried — each of `IBMQ.load_accounts` and
`IBMQ.load_account` appears at most once in the trace. -/
theorem surfaced_error_fixed_message (env : Env) (sdk : SDKState) (a : Args) :
    (∀ e, (ibmqInit env sdk a).2 = some e → e.msg = noAccountMsg) ∧
    (ibmqInit env sdk a).1.count Call.loadAccounts ≤ 1 ∧
    (ibmqInit env sdk a).1.count Call.loadAccount ≤ 1 := by
  obtain ⟨av2, av1, lae1, lae2, gp⟩ := sdk
  obtain ⟨w, prov, bk, sh, kw⟩ := a
  cases h : resolveToken env kw <;>
    cases av2 <;> cases av1 <;> cases lae1 <;> cases lae2 <;>
      cases prov <;>
        simp_all [ibmqInit, finishInit, provCalls, List.count_cons] <;>
          (try rename_i p) <;> (try cases hp : p.truthy) <;>
            simp_all [List.count_cons]

/-- C5 witness: at the all-fail input the surfaced error message is the
module's fixed message, and the v1 load was attempted at most once. -/
theorem surfaced_error_fixed_message_witness :
    (IBMQAccountError.mk noAccountMsg).msg = noAccountMsg ∧
    (ibmqInit envNone sdkC5 argsPlain).1.count Call.loadAccounts ≤ 1 :=
  ⟨(surfaced_error_fixed_message envNone sdkC5 argsPlain).1 ⟨noAccountMsg⟩ rfl,
   (surfaced_error_fixed_message envNone sdkC5 argsPlain).2.1⟩

/-- Helper: every call of the provider-delegation step is a provider
call. -/
theorem provCalls_providerCalls (sdk : SDKState) (a : Args) :
    ∀ c ∈ provCalls sdk a, isProviderCall c = true := by
  obtain ⟨w, prov, bk, sh, kw⟩ := a
  cases prov with
  | none => simp [provCalls, isProviderCall]
  | some p => cases hp : p.truthy <;> simp [provCalls, hp, isProviderCall]

/-- Helper: a provider call is not a lookup call. -/
theorem providerCall_not_lookup (c : Call) (h : isProviderCall c = true) :
    isLookupCall c = false := by
  cases c <;> simp_all [isProviderCall, isLookupCall]

/-- Helper: a provider call is not an activation call. -/
theorem providerCall_not_enable (c : Call) (h : isProviderCall c = true) :
    isEnable c = false := by
  cases c <;> simp_all [isProviderCall, isEnable]

/-- Helper: the v1 disk load never occurs in the provider step. -/
theorem loadAccounts_not_mem_provCalls (sdk : SDKState) (a : Args) :
    Call.loadAccounts ∉ provCalls sdk a := fun h => by
  have := provCalls_providerCalls sdk a _ h
  simp [isProviderCall] at this

/-- Helper: the v2 disk load never occurs in the provider step. -/
theorem loadAccount_not_mem_provCalls (sdk : SDKState) (a : Args) :
    Call.loadAccount ∉ provCalls sdk a := fun h => by
  have := provCalls_providerCalls sdk a _ h
  simp [isProviderCall] at this

/-- Helper: the calls of the account-lookup step when no token was
resolved, as a function of the SDK state. -/
def credCalls (sdk : SDKState) : List Call :=
  if sdk.activeAccountV2 then [Call.activeAccount]
  else if sdk.activeAccountsV1 then [Call.activeAccount, Call.activeAccounts]
  else
    match sdk.loadAccountsError with
    | none => [Call.activeAccount, Call.activeAccounts, Call.loadAccounts]
    | some _ =>
        [Call.activeAccount, Call.activeAccounts, Call.loadAccounts,
         Call.loadAccount]

/-- Helper: whether the account-lookup step fails entirely (no active
account under either scheme and both disk loads raise). -/
def credFail (sdk : SDKState) : Bool :=
  !sdk.activeAccountV2 && !sdk.activeAccountsV1 &&
    sdk.loadAccountsError.isSome && sdk.loadAccountError.isSome

/-- Helper: characterization of a run in which no token was resolved. -/
theorem ibmqInit_eq_of_no_token (env : Env) (sdk : SDKState) (a : Args)
    (h : resolveToken env a.kwargs = none) :
    ibmqInit env sdk a =
      if credFail sdk then (credCalls sdk, some ⟨noAccountMsg⟩)
      else (credCalls sdk ++ provCalls sdk a, none) := by
  obtain ⟨av2, av1, lae1, lae2, gp⟩ := sdk
  cases av2 <;> cases av1 <;> cases lae1 <;> cases lae2 <;>
    simp [ibmqInit, h, finishInit, credCalls, credFail]

/-- Helper: every call of the account-lookup step is an account call. -/
theorem credCalls_accountCalls (sdk : SDKState) :
    ∀ c ∈ credCalls sdk, isAccountCall c = true := by
  obtain ⟨av2, av1, lae1, lae2, gp⟩ := sdk
  cases av2 <;> cases av1 <;> cases lae1 <;> cases lae2 <;>
    simp [credCalls, isAccountCall]

/-- Helper: every call of the account-lookup step is a lookup call (in
particular, not an activation call). -/
theorem credCalls_lookupCalls (sdk : SDKState) :
    ∀ c ∈ credCalls sdk, isLookupCall c = true := by
  obtain ⟨av2, av1, lae1, lae2, gp⟩ := sdk
  cases av2 <;> cases av1 <;> cases lae1 <;> cases lae2 <;>
    simp [credCalls, isLookupCall]

/-- Helper: a lookup call is not an activation call. -/
theorem lookupCall_not_enable (c : Call) (h : isLookupCall c = true) :
    isEnable c = false := by
  cases c <;> simp_all [isLookupCall, isEnable]

/-- Helper: every run decomposes into a block of account-step calls
followed, exactly when no error is raised, by the provider step. -/
theorem ibmqInit_decomp (env : Env) (sdk : SDKState) (a : Args) :
    ∃ pre, (∀ c ∈ pre, isAccountCall c = true) ∧
      ((ibmqInit env sdk a).1 = pre ++ provCalls sdk a ∧
        (ibmqInit env sdk a).2 = none ∨
       (ibmqInit env sdk a).1 = pre ∧
        (ibmqInit env sdk a).2 = some ⟨noAccountMsg⟩) := by
  cases htok : resolveToken env a.kwargs with
  | some t =>
      refine ⟨[Call.enableAccount t (resolveUrl env a.kwargs)],
        by simp [isAccountCall], Or.inl ⟨?_, ?_⟩⟩ <;>
        simp [ibmqInit, htok, finishInit]
  | none =>
      refine ⟨credCalls sdk, credCalls_accountCalls sdk, ?_⟩
      rw [ibmqInit_eq_of_no_token env sdk a htok]
      cases hf : credFail sdk
      · exact Or.inl ⟨by simp, by simp⟩
      · exact Or.inr ⟨by simp, by simp⟩

/-- C6: The constructor's steps are strictly sequenced: every trace is a
block of account-step calls followed by a block of provider-step calls;
no lookup call is ever made when a token was resolved; the v1 disk load
occurs only when neither account scheme is active and only after the two
active-account checks; and the v2 disk load occurs only after the v1 disk
load has raised. -/
theorem init_sequencing (env : Env) (sdk : SDKState) (a : Args) :
    (∃ t1 t2, (ibmqInit env sdk a).1 = t1 ++ t2 ∧
       (∀ c ∈ t1, isAccountCall c = true) ∧
       (∀ c ∈ t2, isProviderCall c = true)) ∧
    ((resolveToken env a.kwargs).isSome = true →
       ∀ c ∈ (ibmqInit env sdk a).1, isLookupCall c = false) ∧
    (Call.loadAccounts ∈ (ibmqInit env sdk a).1 →
       sdk.activeAccountV2 = false ∧ sdk.activeAccountsV1 = false ∧
       ∃ rest, (ibmqInit env sdk a).1 =
         Call.activeAccount :: Call.activeAccounts :: Call.loadAccounts :: rest) ∧
    (Call.loadAccount ∈ (ibmqInit env sdk a).1 →
       sdk.loadAccountsError.isSome = true ∧
       ∃ rest, (ibmqInit env sdk a).1 =
         Call.activeAccount :: Call.activeAccounts :: Call.loadAccounts ::
           Call.loadAccount :: rest) := by
  refine ⟨?_, ?_, ?_, ?_⟩
  · obtain ⟨pre, hpre, hsplit | hsplit⟩ := ibmqInit_decomp env sdk a
    · exact ⟨pre, provCalls sdk a, hsplit.1, hpre, provCalls_providerCalls sdk a⟩
    · exact ⟨pre, [], by simp [hsplit.1], hpre, by simp⟩
  · intro htok c hc
    obtain ⟨t, ht⟩ := Option.isSome_iff_exists.mp htok
    revert hc
    simp only [ibmqInit, ht, finishInit, List.singleton_append, List.mem_cons]
    rintro (rfl | hc)
    · rfl
    · exact providerCall_not_lookup c (provCalls_providerCalls sdk a c hc)
  · intro hmem
    obtain ⟨av2, av1, lae1, lae2, gp⟩ := sdk
    cases htok : resolveToken env a.kwargs with
    | some t =>
        exfalso
        simp only [ibmqInit, htok, finishInit, List.singleton_append,
          List.mem_cons] at hmem
        rcases hmem with h | h
        · exact absurd h (by simp)
        · exact loadAccounts_not_mem_provCalls _ _ h
    | none =>
        cases av2 <;> cases av1 <;> cases lae1 <;> cases lae2 <;>
          simp_all [ibmqInit, finishInit] <;>
            exact absurd hmem (loadAccounts_not_mem_provCalls _ _)
  · intro hmem
    obtain ⟨av2, av1, lae1, lae2, gp⟩ := sdk
    cases htok : resolveToken env a.kwargs with
    | some t =>
        exfalso
        simp only [ibmqInit, htok, finishInit, List.singleton_append,
          List.mem_cons] at hmem
        rcases hmem with h | h
        · exact absurd h (by simp)
        · exact loadAccount_not_mem_provCalls _ _ h
    | none =>
        cases av2 <;> cases av1 <;> cases lae1 <;> cases lae2 <;>
          simp_all [ibmqInit, finishInit] <;>
            exact absurd hmem (loadAccount_not_mem_provCalls _ _)

/-- C6 witness: with no token, no active account and a failing v1 load,
the v1 load has indeed raised by the time the v2 load appears in the
trace. -/
theorem init_sequencing_witness :
    sdkV2Load.loadAccountsError.isSome = true :=
  ((init_sequencing envNone sdkV2Load argsPlain).2.2.2 (by decide)).1

/-- Helper: the provider step consists of the parent-constructor call
with the resolved provider, last, and nothing else super-like; it is
never empty. -/
theorem provCalls_super (sdk : SDKState) (a : Args) :
    (provCalls sdk a).filter isSuperCall =
      [Call.superInit a.wires (resolvedProvider sdk a) a.backend a.shots a.kwargs] ∧
    (provCalls sdk a).getLast? =
      some (Call.superInit a.wires (resolvedProvider sdk a) a.backend a.shots
        a.kwargs) ∧
    provCalls sdk a ≠ [] := by
  obtain ⟨w, prov, bk, sh, kw⟩ := a
  cases prov with
  | none => simp [provCalls, resolvedProvider, isSuperCall]
  | some p =>
      cases hp : p.truthy <;>
        simp [provCalls, resolvedProvider, hp, isSuperCall]

/-- Helper: an account call is not super-like. -/
theorem accountCall_not_super (c : Call) (h : isAccountCall c = true) :
    isSuperCall c = false := by
  cases c <;> simp_all [isAccountCall, isSuperCall]

/-- C7: On every successful call the parent constructor is invoked
exactly once — it is the only super-like call in the trace and also the
last call — receiving the caller's wire count, backend name and shot
count unchanged, the resolved provider, and the whole keyword-argument
dictionary passed through unmodified. -/
theorem super_forwarding (env : Env) (sdk : SDKState) (a : Args)
    (h : (ibmqInit env sdk a).2 = none) :
    (ibmqInit env sdk a).1.filter isSuperCall =
      [Call.superInit a.wires (resolvedProvider sdk a) a.backend a.shots a.kwargs] ∧
    (ibmqInit env sdk a).1.getLast? =
      some (Call.superInit a.wires (resolvedProvider sdk a) a.backend a.shots
        a.kwargs) := by
  obtain ⟨pre, hpre, hsplit | hsplit⟩ := ibmqInit_decomp env sdk a
  · obtain ⟨hfilter, hlast, hne⟩ := provCalls_super sdk a
    rw [hsplit.1]
    constructor
    · rw [List.filter_append, hfilter]
      have : pre.filter isSuperCall = [] := by
        rw [List.filter_eq_nil_iff]
        intro c hc
        simp [accountCall_not_super c (hpre c hc)]
      rw [this, List.nil_append]
    · rw [List.getLast?_append_of_ne_nil pre hne, hlast]
  · rw [hsplit.2] at h
    exact absurd h (by simp)

/-- C7 witness: a successful run with an explicitly supplied token
delegates exactly once to the parent constructor, as its last call. -/
theorem super_forwarding_witness :
    (ibmqInit envTok sdkActive argsPlain).1.filter isSuperCall =
      [Call.superInit argsPlain.wires (resolvedProvider sdkActive argsPlain)
        argsPlain.backend argsPlain.shots argsPlain.kwargs] ∧
    (ibmqInit envTok sdkActive argsPlain).1.getLast? =
      some (Call.superInit argsPlain.wires (resolvedProvider sdkActive argsPlain)
        argsPlain.backend argsPlain.shots argsPlain.kwargs) :=
  super_forwarding envTok sdkActive argsPlain rfl

/-- Helper: `IBMQ.get_provider()` is called in the provider step exactly
when the supplied provider argument is falsy. -/
theorem getProvider_mem_provCalls_iff (sdk : SDKState) (a : Args) :
    Call.getProvider ∈ provCalls sdk a ↔ optTruthy a.provider = false := by
  obtain ⟨w, prov, bk, sh, kw⟩ := a
  cases prov with
  | none => simp [provCalls, optTruthy]
  | some p => cases hp : p.truthy <;> simp [provCalls, optTruthy, hp]

/-- C8: On every successful call the provider forwarded to the parent
constructor is the caller's provider argument whenever that argument is
truthy (in which case `IBMQ.get_provider` is never called), and otherwise
— for Python `None` or any falsy provider object — it is the result of
`IBMQ.get_provider()`, which is then called. -/
theorem provider_resolution (env : Env) (sdk : SDKState) (a : Args)
    (h : (ibmqInit env sdk a).2 = none) :
    Call.superInit a.wires (resolvedProvider sdk a) a.backend a.shots a.kwargs ∈
      (ibmqInit env sdk a).1 ∧
    (optTruthy a.provider = true →
      a.provider = some (resolvedProvider sdk a) ∧
      Call.getProvider ∉ (ibmqInit env sdk a).1) ∧
    (optTruthy a.provider = false →
      resolvedProvider sdk a = sdk.getProviderResult ∧
      Call.getProvider ∈ (ibmqInit env sdk a).1) := by
  obtain ⟨pre, hpre, hsplit | hsplit⟩ := ibmqInit_decomp env sdk a
  · rw [hsplit.1]
    refine ⟨List.mem_append_right pre (superInit_mem_provCalls sdk a), ?_, ?_⟩
    · intro htr
      obtain ⟨w, prov, bk, sh, kw⟩ := a
      cases prov with
      | none => simp [optTruthy] at htr
      | some p =>
          have hp : p.truthy = true := htr
          refine ⟨by simp [resolvedProvider, hp], ?_⟩
          intro hmem
          rcases List.mem_append.mp hmem with hc | hc
          · have := hpre _ hc
            simp [isAccountCall] at this
          · exact absurd ((getProvider_mem_provCalls_iff _ _).mp hc)
              (by simp [htr])
      -- hp handled above
    · intro htr
      constructor
      · obtain ⟨w, prov, bk, sh, kw⟩ := a
        cases prov with
        | none => simp [resolvedProvider]
        | some p =>
            have hp : p.truthy = false := htr
            simp [resolvedProvider, hp]
      · exact List.mem_append_right pre
          ((getProvider_mem_provCalls_iff sdk a).mpr htr)
  · rw [hsplit.2] at h
    exact absurd h (by simp)

/-- Fixture for C8: a falsy non-`None` provider argument. -/
def argsFalsyProv : Args := ⟨2, some ⟨5, false⟩, "ibmq_qasm_simulator", 1024, []⟩

/-- C8 witness: with a falsy (non-`None`) provider argument and an active
account, the forwarded provider is the default one from
`IBMQ.get_provider()`, which is called. -/
theorem provider_resolution_witness :
    resolvedProvider sdkActive argsFalsyProv = sdkActive.getProviderResult ∧
    Call.getProvider ∈ (ibmqInit envNone sdkActive argsFalsyProv).1 :=
  (provider_resolution envNone sdkActive argsFalsyProv rfl).2.2 rfl

/-- C9: An empty-string value of the `IBMQX_TOKEN` environment variable
behaves exactly as if the variable were unset (Python `or` treats `""` as
falsy, so resolution falls through to the `ibmqx_token` keyword), whereas
an empty-string `ibmqx_token` keyword is a present token (`"" is not
None`) and triggers the activation call with the empty string. -/
theorem empty_token_semantics :
    (∀ (u : Option String) (sdk : SDKState) (a : Args),
        ibmqInit ⟨some "", u⟩ sdk a = ibmqInit ⟨none, u⟩ sdk a) ∧
    (∀ (env : Env) (sdk : SDKState) (a : Args),
        strTruthy env.IBMQX_TOKEN = false →
        a.kwargs.lookup "ibmqx_token" = some "" →
        (ibmqInit env sdk a).1.filter isEnable =
          [Call.enableAccount "" (resolveUrl env a.kwargs)]) := by
  constructor
  · intro u sdk a
    have htok : resolveToken ⟨some "", u⟩ a.kwargs = resolveToken ⟨none, u⟩ a.kwargs := by
      have h0 : ("" : String).isEmpty = true := rfl
      simp [resolveToken, pyOr, strTruthy, h0]
    have hurl : resolveUrl ⟨some "", u⟩ a.kwargs = resolveUrl ⟨none, u⟩ a.kwargs := rfl
    simp only [ibmqInit, htok, hurl]
  · intro env sdk a henv hkw
    have htok : resolveToken env a.kwargs = some "" := by
      cases henvT : env.IBMQX_TOKEN with
      | none => simp [resolveToken, pyOr, strTruthy, henvT, hkw]
      | some s =>
          have : s.isEmpty = true := by
            rw [henvT] at henv
            simpa [strTruthy] using henv
          simp [resolveToken, pyOr, strTruthy, henvT, this, hkw]
    exact (enable_account_spec env sdk a).1 "" htok

/-- Fixture for C9: `IBMQX_TOKEN` set to the empty string and the
`ibmqx_token` keyword set to the empty string. -/
def argsEmptyTok : Args := ⟨2, none, "ibmq_qasm_simulator", 1024, [("ibmqx_token", "")]⟩

/-- C9 witness: with `IBMQX_TOKEN=""` in the environment and
`ibmqx_token=""` as a keyword, the constructor calls
`IBMQ.enable_account` with the empty token. -/
theorem empty_token_semantics_witness :
    (ibmqInit ⟨some "", none⟩ sdkAllFail argsEmptyTok).1.filter isEnable =
      [Call.enableAccount "" (resolveUrl ⟨some "", none⟩ argsEmptyTok.kwargs)] :=
  empty_token_semantics.2 ⟨some "", none⟩ sdkAllFail argsEmptyTok rfl rfl

/-- C10: Whenever a URL is resolved but no token is, the URL is never
passed to any SDK call — `IBMQ.enable_account`, the only call taking the
url, never occurs in the trace — and the value of the `IBMQX_URL`
environment variable has no effect on the run at all. -/
theorem url_unused_without_token (env : Env) (sdk : SDKState) (a : Args)
    (u : String) (_hu : resolveUrl env a.kwargs = some u)
    (ht : resolveToken env a.kwargs = none) :
    (∀ c ∈ (ibmqInit env sdk a).1, isEnable c = false) ∧
    (∀ u2 : Option String,
      ibmqInit ⟨env.IBMQX_TOKEN, u2⟩ sdk a = ibmqInit env sdk a) := by
  constructor
  · intro c hc
    rw [ibmqInit_eq_of_no_token env sdk a ht] at hc
    cases hf : credFail sdk <;> rw [hf] at hc <;> simp at hc
    · rcases hc with hmem | hmem
      · exact lookupCall_not_enable c (credCalls_lookupCalls sdk c hmem)
      · exact providerCall_not_enable c (provCalls_providerCalls sdk a c hmem)
    · exact lookupCall_not_enable c (credCalls_lookupCalls sdk c hc)
  · intro u2
    have htok2 : resolveToken ⟨env.IBMQX_TOKEN, u2⟩ a.kwargs = none := ht
    rw [ibmqInit_eq_of_no_token env sdk a ht,
      ibmqInit_eq_of_no_token ⟨env.IBMQX_TOKEN, u2⟩ sdk a htok2]

/-- Fixture for C10: a URL resolved from the environment, no token. -/
def envUrlOnly : Env := ⟨none, some "the-url"⟩

/-- C10 witness: with a URL resolved but no token, the first trace entry
is not an activation call, and changing the `IBMQX_URL` environment
variable leaves the run unchanged. -/
theorem url_unused_without_token_witness :
    isEnable Call.activeAccount = false ∧
    ibmqInit ⟨envUrlOnly.IBMQX_TOKEN, some "other"⟩ sdkActive argsPlain =
      ibmqInit envUrlOnly sdkActive argsPlain :=
  ⟨(url_unused_without_token envUrlOnly sdkActive argsPlain "the-url" rfl rfl).1
      Call.activeAccount (by decide),
   (url_unused_without_token envUrlOnly sdkActive argsPlain "the-url" rfl rfl).2
      (some "other")⟩

end PennylaneQiskit
